import Mathlib

/-!
Shallow embedding of src/config.py (module 3MeloD / config classes) and
verification of the specification claims about it.

The module defines a base class MeloDConfig holding a configuration store
_config_data (class-level default None), a loader could_load_file that
parses a TOML file into a nested dict, a hierarchical path resolver
_get_data_value, and thin typed accessors in the subclasses ProjectConfig
and SongConfig.  Python values flowing through the resolver are modelled
by TomlValue (the values tomllib can produce) together with Option for
Python None; Python exceptions are modelled by the PyErr error type
carried in Except.
-/

/-- Values producible by tomllib at src/config.py:34: strings, integers,
booleans, nested tables (Python dicts, modelled as association lists with
insertion order and unique keys) and arrays.  TOML has no null value, so a
value stored in the configuration store is never Python None.  TOML floats
are not modelled separately; the claims under verification never depend on
float arithmetic, and every numeric literal in a witness uses the int
constructor. -/
inductive TomlValue where
  | str (s : String) : TomlValue
  | int (n : Int) : TomlValue
  | boolean (b : Bool) : TomlValue
  | table (entries : List (String × TomlValue)) : TomlValue
  | arr (elems : List TomlValue) : TomlValue

/-- A Python-level value as seen inside the resolver loop of
src/config.py:67-76: either None (the result of a failed dict.get) or an
actual TOML value. -/
abbrev PyVal := Option TomlValue

/-- Python exceptions that the code under src/config.py can raise or
handle at the resolution layer.  notValidConfigDataPath embeds
NotValidConfigDataPathException (src/config.py:154-156),
notExistsInConfig embeds NotExistsInConfigException (src/config.py:159-161,
carrying the data path passed to its constructor), attributeError embeds
Python AttributeError (type name and attribute name), and valueError
embeds Python ValueError (raised by str.split on an empty separator). -/
inductive PyErr where
  | notValidConfigDataPath : PyErr
  | notExistsInConfig (data_path : String) : PyErr
  | attributeError (typeName attrName : String) : PyErr
  | valueError (msg : String) : PyErr

/-- The message attached to each embedded exception, following the
constructor calls at src/config.py:156 and src/config.py:161 and the usual
Python texts for AttributeError and ValueError. -/
def PyErr.message : PyErr → String
  | .notValidConfigDataPath => "The data path for the loaded config is not valid."
  | .notExistsInConfig data_path =>
      "The config value searched at " ++ data_path ++ " does not exist."
  | .attributeError typeName attrName =>
      "'" ++ typeName ++ "' object has no attribute '" ++ attrName ++ "'"
  | .valueError msg => msg

/-- The Python type name of a value, as it appears in AttributeError
messages (None has type NoneType, a TOML table is a dict, a TOML array is
a list). -/
def pyTypeName : PyVal → String
  | none => "NoneType"
  | some (.str _) => "str"
  | some (.int _) => "int"
  | some (.boolean _) => "bool"
  | some (.table _) => "dict"
  | some (.arr _) => "list"

/-- Embeds Python dict.get(key) as called at src/config.py:70.  On a dict it
returns the value bound to the key, or None when the key is absent.  On any
non-dict value, including None, Python raises AttributeError because only
dicts among the values reachable here have a get method. -/
def pyGet (data : PyVal) (key : String) : Except PyErr PyVal :=
  match data with
  | some (.table kvs) => .ok (kvs.lookup key)
  | d => .error (.attributeError (pyTypeName d) "get")

/-- Worker for Python str.split(sep) with a non-empty separator, over
explicit character lists.  The third argument accumulates the current
segment in reverse; the fourth counts separator characters still to be
skipped after a match (the head character of a match is consumed
structurally, the remaining sep.length - 1 via this counter).  Recursion is
structural in the subject string. -/
def pySplitGo (sep : List Char) : List Char → List Char → Nat → List (List Char)
  | [], acc, _ => [acc.reverse]
  | _ :: cs, acc, Nat.succ skip => pySplitGo sep cs acc skip
  | c :: cs, acc, 0 =>
    if sep.isPrefixOf (c :: cs) then
      acc.reverse :: pySplitGo sep cs [] (sep.length - 1)
    else
      pySplitGo sep cs (c :: acc) 0

/-- Embeds Python str.split(sep) as called at src/config.py:63.  Python
raises ValueError for an empty separator; otherwise it cuts the string at
every non-overlapping occurrence of the separator, keeping empty segments,
so that splitting the empty string yields a list holding one empty
string (never the empty list). -/
def pySplit (s sep : String) : Except PyErr (List String) :=
  if sep = "" then .error (.valueError "empty separator")
  else .ok ((pySplitGo sep.data s.data [] 0).map fun cs => String.mk cs)

/-- Embeds the Python comparison data_path == [] at src/config.py:64.  The
left operand is a str and the right operand is a list literal; in Python a
str never equals a list, so this comparison is False for every string,
including the empty string.  (The other disjunct, data_path is None, is
likewise False whenever data_path is a string.) -/
def strEqEmptyList (_data_path : String) : Bool := false

/-- The loop at src/config.py:69-74: walk the segments, replacing data by
data.get(segment) at each step; raise NotExistsInConfigException carrying
the original full data_path as soon as the retrieved value is None; if the
current data has no get method Python raises AttributeError.  When the
segment list is exhausted the current data is returned. -/
def walkPath (data_path : String) : PyVal → List String → Except PyErr PyVal
  | data, [] => .ok data
  | data, path :: rest =>
    match pyGet data path with
    | .error e => .error e
    | .ok d =>
      match d with
      | none => .error (.notExistsInConfig data_path)
      | some v => walkPath data_path (some v) rest

/-- The state of a MeloDConfig instance (src/config.py:7-16): the single
attribute _config_data, whose class-level default is None. -/
structure MeloDConfig where
  _config_data : Option TomlValue

/-- MeloDConfig.__init__ (src/config.py:14-16).  The statement
_config_data = {} binds a LOCAL variable named _config_data and discards
it; it does not assign to self._config_data, so a fresh instance keeps the
class-level default None. -/
def MeloDConfig.new_instance : MeloDConfig :=
  let local_config_data : PyVal := some (.table [])
  let _ := local_config_data
  { _config_data := none }

/-- MeloDConfig._get_data_value (src/config.py:48-76) for a string
data_path (a Python None argument would raise AttributeError at the split
call before anything else).  First data_path.split(sep) runs (it can raise
ValueError on an empty separator); then the guard
(data_path is None or data_path == []) is evaluated — by strEqEmptyList it
is False for every string, so NotValidConfigDataPathException is never
raised; then the walk loop runs over self._config_data.  The method only
reads self, which the returned pair makes explicit: the second component
is the post-state of the instance. -/
def MeloDConfig._get_data_value (self : MeloDConfig) (data_path sep : String) :
    Except PyErr PyVal × MeloDConfig :=
  (match pySplit data_path sep with
   | .error e => .error e
   | .ok _data_path_array =>
     if strEqEmptyList data_path then .error PyErr.notValidConfigDataPath
     else walkPath data_path self._config_data _data_path_array,
   self)

/-- Outcome of opening and TOML-parsing one file path, the behaviour of the
try body at src/config.py:31-35 for a given filesystem: success carries the
parsed top-level dict, the other constructors are the exceptions handled at
src/config.py:38-46 (tomllib.TOMLDecodeError, FileNotFoundError, and any
other exception). -/
inductive LoadOutcome where
  | success (parsed : List (String × TomlValue)) : LoadOutcome
  | tomlDecodeError : LoadOutcome
  | fileNotFound : LoadOutcome
  | otherError (msg : String) : LoadOutcome

/-- MeloDConfig.could_load_file (src/config.py:18-46).  The filesystem (the
composition of os.path.abspath, open and tomllib.load) is modelled as a
function from the given filepath to a LoadOutcome.  A None or empty
filepath prints a diagnostic and returns False before touching the
filesystem.  self._config_data is assigned only when open and tomllib.load
both succeed, after which True is returned; every handled exception prints
a diagnostic and returns False, leaving self._config_data untouched. -/
def MeloDConfig.could_load_file (self : MeloDConfig) (fs : String → LoadOutcome)
    (filepath : Option String) : Bool × MeloDConfig :=
  match filepath with
  | none => (false, self)
  | some fp =>
    if fp = "" then (false, self)
    else
      match fs fp with
      | .success parsed => (true, { self with _config_data := some (.table parsed) })
      | .tomlDecodeError => (false, self)
      | .fileNotFound => (false, self)
      | .otherError _ => (false, self)

/-- Threads one resolver call inside an accessor: Python evaluates the
tuple components left to right and the first raised exception propagates.
This helper sequences a previous accumulated result with the next
_get_data_value call on the threaded instance. -/
def accessStep (acc : Except PyErr (List PyVal) × MeloDConfig) (data_path : String) :
    Except PyErr (List PyVal) × MeloDConfig :=
  match acc with
  | (.error e, s) => (.error e, s)
  | (.ok vs, s) =>
    let r := s._get_data_value data_path "/"
    match r.1 with
    | .error e => (.error e, r.2)
    | .ok v => (.ok (vs ++ [v]), r.2)

/-- Runs an accessor body: a left-to-right sequence of _get_data_value
calls on hardcoded paths with the default separator, collecting the raw
results in order. -/
def accessPaths (self : MeloDConfig) (paths : List String) :
    Except PyErr (List PyVal) × MeloDConfig :=
  paths.foldl accessStep (.ok [], self)

/-- ProjectConfig.get_printer_angles_per_step (src/config.py:87-94). -/
def ProjectConfig.get_printer_angles_per_step (self : MeloDConfig) :
    Except PyErr (List PyVal) × MeloDConfig :=
  accessPaths self ["printer/x_ang", "printer/y_ang", "printer/z_ang"]

/-- ProjectConfig.get_printer_rot_distance_per_rev (src/config.py:96-103). -/
def ProjectConfig.get_printer_rot_distance_per_rev (self : MeloDConfig) :
    Except PyErr (List PyVal) × MeloDConfig :=
  accessPaths self ["printer/x_rpr", "printer/y_rpr", "printer/z_rpr"]

/-- ProjectConfig.get_printer_dimensions (src/config.py:105-112): the
3-tuple of the raw values at printer/x_dim, printer/y_dim, printer/z_dim,
in that order. -/
def ProjectConfig.get_printer_dimensions (self : MeloDConfig) :
    Except PyErr (List PyVal) × MeloDConfig :=
  accessPaths self ["printer/x_dim", "printer/y_dim", "printer/z_dim"]

/-- ProjectConfig.get_song_config_path (src/config.py:114-119). -/
def ProjectConfig.get_song_config_path (self : MeloDConfig) :
    Except PyErr (List PyVal) × MeloDConfig :=
  accessPaths self ["song/config_filepath"]

/-- SongConfig.get_song_properties (src/config.py:126-132). -/
def SongConfig.get_song_properties (self : MeloDConfig) :
    Except PyErr (List PyVal) × MeloDConfig :=
  accessPaths self ["song_name", "song_directory"]

/-- SongConfig.get_song_tempo (src/config.py:134-139). -/
def SongConfig.get_song_tempo (self : MeloDConfig) :
    Except PyErr (List PyVal) × MeloDConfig :=
  accessPaths self ["tempo"]

/-- SongConfig.get_song_octaves_adjustment (src/config.py:141-148). -/
def SongConfig.get_song_octaves_adjustment (self : MeloDConfig) :
    Except PyErr (List PyVal) × MeloDConfig :=
  accessPaths self ["x_octave_adj", "y_octave_adj", "z_octave_adj"]

/-- Specification-side reading of the resolver (a refinement reference,
written from the words of the spec, not from the code): the value stored
at a list of path segments when each segment names an existing entry of
the current table, walked from the given root.  none when some segment is
missing or descends into a non-table. -/
def storedValueAt : TomlValue → List String → Option TomlValue
  | v, [] => some v
  | .table kvs, k :: rest =>
    match kvs.lookup k with
    | some v => storedValueAt v rest
    | none => none
  | _, _ :: _ => none

/-- A demonstration filesystem for concrete witnesses: every path parses
to a small song configuration file. -/
def demoSongFs : String → LoadOutcome := fun _ => .success [("tempo", .int 120)]

/-- A demonstration filesystem for concrete witnesses: every path parses
to a project configuration file defining the printer dimensions. -/
def demoProjectFs : String → LoadOutcome :=
  fun _ => .success
    [("printer", .table [("x_dim", .int 220), ("y_dim", .int 210), ("z_dim", .int 250)])]

/-- Walking a prefix of segments that resolves (in the specification
reading) to a value w is the same as starting the walk at w. -/
theorem walkPath_append (data_path : String) :
    ∀ (pre : List String) (root w : TomlValue) (rest : List String),
      storedValueAt root pre = some w →
      walkPath data_path (some root) (pre ++ rest) = walkPath data_path (some w) rest := by
  intro pre
  induction pre with
  | nil =>
    intro root w rest h
    simp only [storedValueAt, Option.some.injEq] at h
    subst h
    rfl
  | cons k pre ih =>
    intro root w rest h
    cases root with
    | table kvs =>
      simp only [storedValueAt] at h
      cases hl : kvs.lookup k with
      | none => rw [hl] at h; simp at h
      | some v =>
        rw [hl] at h
        simp only [List.cons_append, walkPath, pyGet, hl]
        exact ih v w rest h
    | str s => simp [storedValueAt] at h
    | int n => simp [storedValueAt] at h
    | boolean b => simp [storedValueAt] at h
    | arr l => simp [storedValueAt] at h

/-- The split worker never returns the empty list of segments. -/
theorem pySplitGo_ne_nil (sep : List Char) :
    ∀ (cs acc : List Char) (skip : Nat), pySplitGo sep cs acc skip ≠ [] := by
  intro cs
  induction cs with
  | nil => intro acc skip; simp [pySplitGo]
  | cons c cs ih =>
    intro acc skip
    cases skip with
    | succ n => simpa only [pySplitGo] using ih acc n
    | zero =>
      cases hp : sep.isPrefixOf (c :: cs) with
      | true => simp [pySplitGo, hp]
      | false =>
        simp only [pySplitGo, hp, Bool.false_eq_true, if_false]
        exact ih (c :: acc) 0

/-- When every segment of the split path names an existing entry walked
from the root, the resolver returns exactly the stored terminal value and
leaves the instance as it was. -/
theorem get_data_value_ok (root v : TomlValue) (data_path sep : String) (segs : List String)
    (hsplit : pySplit data_path sep = .ok segs)
    (hstored : storedValueAt root segs = some v) :
    (MeloDConfig.mk (some root))._get_data_value data_path sep
      = (.ok (some v), MeloDConfig.mk (some root)) := by
  have hw : walkPath data_path (some root) (segs ++ []) = walkPath data_path (some v) [] :=
    walkPath_append data_path segs root v [] hstored
  rw [List.append_nil] at hw
  simp only [MeloDConfig._get_data_value, hsplit, strEqEmptyList, Bool.false_eq_true,
    if_false]
  rw [hw]
  rfl

/-- One accessor step leaves the threaded instance unchanged. -/
theorem accessStep_preserves (acc : Except PyErr (List PyVal) × MeloDConfig) (p : String) :
    (accessStep acc p).2 = acc.2 := by
  obtain ⟨r, s⟩ := acc
  cases r with
  | error e => rfl
  | ok vs =>
    rcases hE : s._get_data_value p "/" with ⟨E, s2⟩
    have hs2 : s2 = s := by
      have h2 : (s._get_data_value p "/").2 = s2 := by rw [hE]
      simpa [MeloDConfig._get_data_value] using h2.symm
    simp only [accessStep, hE]
    cases E <;> simp [hs2]

/-- A fold of accessor steps leaves the threaded instance unchanged. -/
theorem accessPaths_fold_preserves (paths : List String) :
    ∀ acc : Except PyErr (List PyVal) × MeloDConfig,
      (paths.foldl accessStep acc).2 = acc.2 := by
  induction paths with
  | nil => intro acc; rfl
  | cons p ps ih =>
    intro acc
    rw [List.foldl_cons, ih (accessStep acc p)]
    exact accessStep_preserves acc p

/-- Every accessor body leaves the instance unchanged. -/
theorem accessPaths_preserves (self : MeloDConfig) (paths : List String) :
    (accessPaths self paths).2 = self :=
  accessPaths_fold_preserves paths (.ok [], self)

/-- C1: for every loaded configuration store and every path string whose
segments (split on the separator) each name an existing, non-null entry
when walked from the root, _get_data_value returns exactly the value
stored at the terminal location, with no coercion or transformation.
(Values parsed from TOML are never null, so an existing entry is
automatically non-null.) -/
theorem c1_resolve_existing_path_identity (root v : TomlValue) (data_path sep : String)
    (segs : List String)
    (hsplit : pySplit data_path sep = .ok segs)
    (hstored : storedValueAt root segs = some v) :
    ((MeloDConfig.mk (some root))._get_data_value data_path sep).1 = .ok (some v) := by
  rw [get_data_value_ok root v data_path sep segs hsplit hstored]

/-- Witness for C1 at a concrete store and path. -/
theorem c1_resolve_existing_path_identity_witness :
    ((MeloDConfig.mk (some (.table [("printer", .table [("x_dim", .int 220)])])))._get_data_value
        "printer/x_dim" "/").1 = .ok (some (.int 220)) :=
  c1_resolve_existing_path_identity (.table [("printer", .table [("x_dim", .int 220)])])
    (.int 220) "printer/x_dim" "/" ["printer", "x_dim"] rfl rfl

/-- C2 evidence (code bug): calling the resolver with the empty string as
the data path on a store that lacks an empty key raises
NotExistsInConfigException, not NotValidConfigDataPathException.  The
guard at src/config.py:64 compares the str data_path with a list literal,
which is always False in Python, so the invalid-path branch is
unreachable; the walk then looks up the single empty segment produced by
the split and fails at the not-found check instead. -/
theorem c2_empty_path_raises_not_exists :
    ((MeloDConfig.mk (some (.table [("a", .int 1)])))._get_data_value "" "/").1
      = .error (.notExistsInConfig "") := rfl

/-- C3: for every loaded store and every path that splits into a prefix of
segments resolving to a table followed by a segment whose key is absent
from that table, the resolver raises the not-found error immediately at
that segment, and the error carries the original full path string.  (In
TOML-parsed data no stored value is null, so the absent-key case is the
one that triggers the None check of src/config.py:73.) -/
theorem c3_missing_key_raises_not_exists (root : TomlValue)
    (kvs : List (String × TomlValue)) (data_path sep : String)
    (pre post : List String) (k : String)
    (hsplit : pySplit data_path sep = .ok (pre ++ k :: post))
    (hwalk : storedValueAt root pre = some (.table kvs))
    (hmissing : kvs.lookup k = none) :
    ((MeloDConfig.mk (some root))._get_data_value data_path sep).1
      = .error (.notExistsInConfig data_path) := by
  simp only [MeloDConfig._get_data_value, hsplit, strEqEmptyList, Bool.false_eq_true,
    if_false]
  rw [walkPath_append data_path pre root (.table kvs) (k :: post) hwalk]
  simp [walkPath, pyGet, hmissing]

/-- Witness for C3: the first segment resolves, the second is missing, and
the error carries the full path printer/q. -/
theorem c3_missing_key_raises_not_exists_witness :
    ((MeloDConfig.mk (some (.table [("printer", .table [("x_dim", .int 220)])])))._get_data_value
        "printer/q" "/").1 = .error (.notExistsInConfig "printer/q") :=
  c3_missing_key_raises_not_exists (.table [("printer", .table [("x_dim", .int 220)])])
    [("x_dim", .int 220)] "printer/q" "/" ["printer"] [] "q" rfl rfl rfl

/-- C4 evidence (code bug): a path whose intermediate segment resolves to a
scalar while a further segment remains makes the resolver raise Python
AttributeError (int object has no attribute get) at src/config.py:70, not
NotExistsInConfigException as the spec and the method docstring promise
for a dead-end. -/
theorem c4_scalar_descend_raises_attribute_error :
    ((MeloDConfig.mk (some (.table [("a", .int 1)])))._get_data_value "a/b" "/").1
      = .error (.attributeError "int" "get") := rfl

/-- C5: for every store state, filesystem behaviour and filepath argument,
could_load_file returns a boolean and never raises (the embedding is a
total function into Bool, mirroring the except clauses at
src/config.py:38-46 that swallow every exception): it returns True exactly
when a filepath is present, non-empty, and the file opens and parses
successfully; a None or empty filepath, a missing file, invalid TOML, and
any other error all collapse to the indistinguishable return value
False. -/
theorem c5_could_load_file_boolean_collapse (cfg : MeloDConfig)
    (fs : String → LoadOutcome) (filepath : Option String) :
    (cfg.could_load_file fs filepath).1 = true ↔
      ∃ fp parsed, filepath = some fp ∧ fp ≠ "" ∧ fs fp = .success parsed := by
  cases filepath with
  | none => simp [MeloDConfig.could_load_file]
  | some fp =>
    by_cases h : fp = ""
    · subst h
      simp [MeloDConfig.could_load_file]
    · cases hfs : fs fp with
      | success parsed => simp [MeloDConfig.could_load_file, h, hfs]
      | tomlDecodeError => simp [MeloDConfig.could_load_file, h, hfs]
      | fileNotFound => simp [MeloDConfig.could_load_file, h, hfs]
      | otherError m => simp [MeloDConfig.could_load_file, h, hfs]

/-- C6: either could_load_file leaves the configuration store exactly as it
was (which covers every failing call, since the success branch is the only
other disjunct), or the call succeeded on an existing, non-empty,
parseable filepath and the store was replaced wholesale by the parsed
structure, independent of its previous contents. -/
theorem c6_failure_preserves_store (cfg : MeloDConfig) (fs : String → LoadOutcome)
    (filepath : Option String) :
    (cfg.could_load_file fs filepath).2 = cfg ∨
      ((cfg.could_load_file fs filepath).1 = true ∧
        ∃ fp parsed, filepath = some fp ∧ fp ≠ "" ∧ fs fp = .success parsed ∧
          (cfg.could_load_file fs filepath).2
            = MeloDConfig.mk (some (.table parsed))) := by
  cases filepath with
  | none => left; rfl
  | some fp =>
    by_cases h : fp = ""
    · left
      simp [MeloDConfig.could_load_file, h]
    · cases hfs : fs fp with
      | success parsed =>
        right
        refine ⟨?_, fp, parsed, rfl, h, hfs, ?_⟩ <;>
          simp [MeloDConfig.could_load_file, h, hfs]
      | tomlDecodeError => left; simp [MeloDConfig.could_load_file, h, hfs]
      | fileNotFound => left; simp [MeloDConfig.could_load_file, h, hfs]
      | otherError m => left; simp [MeloDConfig.could_load_file, h, hfs]

/-- C7: after a successful load of a well-formed file defining
printer.x_dim, printer.y_dim and printer.z_dim, get_printer_dimensions
returns exactly those three stored values, in x, y, z order. -/
theorem c7_get_printer_dimensions_returns_stored (cfg : MeloDConfig)
    (fs : String → LoadOutcome) (fp : String)
    (kvs pkvs : List (String × TomlValue)) (xd yd zd : TomlValue)
    (hfp : fp ≠ "") (hfs : fs fp = .success kvs)
    (hp : kvs.lookup "printer" = some (.table pkvs))
    (hx : pkvs.lookup "x_dim" = some xd)
    (hy : pkvs.lookup "y_dim" = some yd)
    (hz : pkvs.lookup "z_dim" = some zd) :
    (cfg.could_load_file fs (some fp)).1 = true ∧
    (ProjectConfig.get_printer_dimensions (cfg.could_load_file fs (some fp)).2).1
      = .ok [some xd, some yd, some zd] := by
  have hcfg2 : (cfg.could_load_file fs (some fp)).2 = MeloDConfig.mk (some (.table kvs)) := by
    simp [MeloDConfig.could_load_file, hfp, hfs]
  have h1 : (MeloDConfig.mk (some (.table kvs)))._get_data_value "printer/x_dim" "/"
      = (.ok (some xd), MeloDConfig.mk (some (.table kvs))) :=
    get_data_value_ok _ xd "printer/x_dim" "/" ["printer", "x_dim"] rfl
      (by simp [storedValueAt, hp, hx])
  have h2 : (MeloDConfig.mk (some (.table kvs)))._get_data_value "printer/y_dim" "/"
      = (.ok (some yd), MeloDConfig.mk (some (.table kvs))) :=
    get_data_value_ok _ yd "printer/y_dim" "/" ["printer", "y_dim"] rfl
      (by simp [storedValueAt, hp, hy])
  have h3 : (MeloDConfig.mk (some (.table kvs)))._get_data_value "printer/z_dim" "/"
      = (.ok (some zd), MeloDConfig.mk (some (.table kvs))) :=
    get_data_value_ok _ zd "printer/z_dim" "/" ["printer", "z_dim"] rfl
      (by simp [storedValueAt, hp, hz])
  refine ⟨by simp [MeloDConfig.could_load_file, hfp, hfs], ?_⟩
  rw [hcfg2]
  simp [ProjectConfig.get_printer_dimensions, accessPaths, List.foldl_cons, List.foldl_nil,
    accessStep, h1, h2, h3]

/-- Witness for C7 on the demonstration project filesystem. -/
theorem c7_get_printer_dimensions_returns_stored_witness :
    (MeloDConfig.new_instance.could_load_file demoProjectFs (some "project.toml")).1 = true ∧
    (ProjectConfig.get_printer_dimensions
        (MeloDConfig.new_instance.could_load_file demoProjectFs (some "project.toml")).2).1
      = .ok [some (.int 220), some (.int 210), some (.int 250)] :=
  c7_get_printer_dimensions_returns_stored MeloDConfig.new_instance demoProjectFs
    "project.toml"
    [("printer", .table [("x_dim", .int 220), ("y_dim", .int 210), ("z_dim", .int 250)])]
    [("x_dim", .int 220), ("y_dim", .int 210), ("z_dim", .int 250)]
    (.int 220) (.int 210) (.int 250)
    (by decide) rfl rfl rfl rfl rfl

/-- C8: loading the same well-formed file content twice in succession is
idempotent with respect to reads: the second successful load reproduces
the same store state, so the resolver (and hence every accessor built on
it) returns identical results after the first and after the second
load. -/
theorem c8_double_load_idempotent_reads (cfg : MeloDConfig)
    (fs : String → LoadOutcome) (filepath : Option String) (data_path sep : String)
    (hok : (cfg.could_load_file fs filepath).1 = true) :
    ((cfg.could_load_file fs filepath).2.could_load_file fs filepath).1 = true ∧
    ((cfg.could_load_file fs filepath).2.could_load_file fs filepath).2
      = (cfg.could_load_file fs filepath).2 ∧
    (((cfg.could_load_file fs filepath).2.could_load_file fs filepath).2._get_data_value
        data_path sep)
      = ((cfg.could_load_file fs filepath).2._get_data_value data_path sep) := by
  cases filepath with
  | none => simp [MeloDConfig.could_load_file] at hok
  | some fp =>
    by_cases h : fp = ""
    · subst h
      simp [MeloDConfig.could_load_file] at hok
    · cases hfs : fs fp with
      | success parsed =>
        have e1 : cfg.could_load_file fs (some fp)
            = (true, MeloDConfig.mk (some (.table parsed))) := by
          simp [MeloDConfig.could_load_file, h, hfs]
        have e2 : (MeloDConfig.mk (some (.table parsed))).could_load_file fs (some fp)
            = (true, MeloDConfig.mk (some (.table parsed))) := by
          simp [MeloDConfig.could_load_file, h, hfs]
        simp [e1, e2]
      | tomlDecodeError => simp [MeloDConfig.could_load_file, h, hfs] at hok
      | fileNotFound => simp [MeloDConfig.could_load_file, h, hfs] at hok
      | otherError m => simp [MeloDConfig.could_load_file, h, hfs] at hok

/-- Witness for C8 on the demonstration song filesystem. -/
theorem c8_double_load_idempotent_reads_witness :
    ((MeloDConfig.new_instance.could_load_file demoSongFs (some "song.toml")).2.could_load_file
        demoSongFs (some "song.toml")).1 = true ∧
    ((MeloDConfig.new_instance.could_load_file demoSongFs (some "song.toml")).2.could_load_file
        demoSongFs (some "song.toml")).2
      = (MeloDConfig.new_instance.could_load_file demoSongFs (some "song.toml")).2 ∧
    (((MeloDConfig.new_instance.could_load_file demoSongFs (some "song.toml")).2.could_load_file
        demoSongFs (some "song.toml")).2._get_data_value "tempo" "/")
      = ((MeloDConfig.new_instance.could_load_file demoSongFs
          (some "song.toml")).2._get_data_value "tempo" "/") :=
  c8_double_load_idempotent_reads MeloDConfig.new_instance demoSongFs (some "song.toml")
    "tempo" "/" rfl

/-- C9: no operation other than a successful load modifies the
configuration store: the resolver, and with it every typed accessor of
ProjectConfig and SongConfig, leaves the instance state exactly unchanged,
whether it returns a value or raises. -/
theorem c9_read_only_store (cfg : MeloDConfig) (data_path sep : String) :
    (cfg._get_data_value data_path sep).2 = cfg ∧
    (ProjectConfig.get_printer_angles_per_step cfg).2 = cfg ∧
    (ProjectConfig.get_printer_rot_distance_per_rev cfg).2 = cfg ∧
    (ProjectConfig.get_printer_dimensions cfg).2 = cfg ∧
    (ProjectConfig.get_song_config_path cfg).2 = cfg ∧
    (SongConfig.get_song_properties cfg).2 = cfg ∧
    (SongConfig.get_song_tempo cfg).2 = cfg ∧
    (SongConfig.get_song_octaves_adjustment cfg).2 = cfg :=
  ⟨rfl, accessPaths_preserves cfg _, accessPaths_preserves cfg _,
    accessPaths_preserves cfg _, accessPaths_preserves cfg _, accessPaths_preserves cfg _,
    accessPaths_preserves cfg _, accessPaths_preserves cfg _⟩

/-- C10: a freshly constructed config object still has None as its store,
because the initializer assigns the empty dict to a local variable; every
resolver call in this unloaded state (with the separators Python accepts,
that is, non-empty ones) fails with AttributeError on NoneType, not with
either of the two documented config exceptions. -/
theorem c10_unloaded_state_attribute_error (data_path sep : String) (hsep : sep ≠ "") :
    MeloDConfig.new_instance._config_data = none ∧
    (MeloDConfig.new_instance._get_data_value data_path sep).1
      = .error (.attributeError "NoneType" "get") := by
  refine ⟨rfl, ?_⟩
  have hne : (pySplitGo sep.data data_path.data [] 0).map String.mk ≠ [] := by
    intro hnil
    exact pySplitGo_ne_nil sep.data data_path.data [] 0 (List.map_eq_nil_iff.mp hnil)
  obtain ⟨a, rest, hL⟩ := List.exists_cons_of_ne_nil hne
  have hsplit : pySplit data_path sep = .ok (a :: rest) := by
    rw [pySplit, if_neg hsep, hL]
  simp only [MeloDConfig._get_data_value, hsplit, strEqEmptyList, Bool.false_eq_true,
    if_false]
  rfl

/-- Witness for C10 at the default separator and a typical accessor
path. -/
theorem c10_unloaded_state_attribute_error_witness :
    MeloDConfig.new_instance._config_data = none ∧
    (MeloDConfig.new_instance._get_data_value "printer/x_dim" "/").1
      = .error (.attributeError "NoneType" "get") :=
  c10_unloaded_state_attribute_error "printer/x_dim" "/" (by decide)
